import Mathlib

/-!
Verification development for the yesbee-indicator-trade repository.

The in-repo code is a SvelteKit dashboard: analytics pages computing
performance metrics over a list of closed trades, YAML-config API endpoints
with a shallow-merge PATCH, and a Zerodha token-exchange POST handler.
The paper-trade lifecycle engine (trade ledger, exit evaluator, risk
governor, trailing stops) exists in the repository only as requirement
documents; those parts are modelled from the specification text.

Numbers are modelled as rationals; JavaScript division by zero is modelled
explicitly with a tagged number type carrying NaN and infinities.
-/

namespace Yesbee

/-- A closed trade record as consumed by the dashboard pages
(`$lib/data/trades.json`): symbol, option type, pattern, entry time,
exit time, exit price and realized P&L.  Times are ISO strings such as
`2025-01-01T10:15:00`. -/
structure ClosedTrade where
  symbol : String
  optionType : String
  pattern : String
  entryTime : String
  exitTime : String
  exitPrice : ℚ
  pnl : ℚ
  deriving DecidableEq

/-- JavaScript number semantics restricted to what the dashboard code
exercises: finite rationals, NaN and signed infinities. -/
inductive JSNum where
  | num (q : ℚ)
  | nan
  | posInf
  | negInf
  deriving DecidableEq

/-- JavaScript division: `0/0` is NaN, `x/0` for `x ≠ 0` is a signed
infinity, and NaN propagates. -/
def jsDiv : JSNum → JSNum → JSNum
  | .num a, .num b =>
      if b = 0 then
        if a = 0 then .nan else if 0 < a then .posInf else .negInf
      else .num (a / b)
  | .posInf, .num b => if 0 < b then .posInf else if b < 0 then .negInf else .nan
  | .negInf, .num b => if 0 < b then .negInf else if b < 0 then .posInf else .nan
  | _, _ => .nan

/-- JavaScript multiplication on the same fragment: NaN propagates,
`±∞ × x` follows the sign of `x` and `±∞ × 0` is NaN. -/
def jsMul : JSNum → JSNum → JSNum
  | .num a, .num b => .num (a * b)
  | .posInf, .num b => if 0 < b then .posInf else if b < 0 then .negInf else .nan
  | .negInf, .num b => if 0 < b then .negInf else if b < 0 then .posInf else .nan
  | .num a, .posInf => if 0 < a then .posInf else if a < 0 then .negInf else .nan
  | .num a, .negInf => if 0 < a then .negInf else if a < 0 then .posInf else .nan
  | _, _ => .nan

/-- `const wins = trades.filter(t => t.pnl > 0).length` (analytics page). -/
def winsCount (ts : List ClosedTrade) : ℕ :=
  (ts.filter (fun t => 0 < t.pnl)).length

/-- `const losses = trades.filter(t => t.pnl <= 0).length`. -/
def lossesCount (ts : List ClosedTrade) : ℕ :=
  (ts.filter (fun t => t.pnl ≤ 0)).length

/-- `const totalTrades = trades.length` (dashboard page). -/
def totalTrades (ts : List ClosedTrade) : ℕ := ts.length

/-- `const totalPnL = trades.reduce((acc, t) => acc + t.pnl, 0)`. -/
def totalPnL (ts : List ClosedTrade) : ℚ :=
  (ts.map (fun t => t.pnl)).sum

/-- `const winRate = (wins / trades.length * 100)` (analytics page), with
JavaScript division semantics: on an empty trade list this is `0/0`. -/
def winRateJS (ts : List ClosedTrade) : JSNum :=
  jsMul (jsDiv (.num (winsCount ts : ℚ)) (.num (ts.length : ℚ))) (.num 100)

/-- `const totalProfit = trades.filter(t => t.pnl > 0).reduce((acc, t) => acc + t.pnl, 0)`:
the gross profit. -/
def totalProfit (ts : List ClosedTrade) : ℚ :=
  ((ts.filter (fun t => 0 < t.pnl)).map (fun t => t.pnl)).sum

/-- `const totalLoss = Math.abs(trades.filter(t => t.pnl <= 0).reduce((acc, t) => acc + t.pnl, 0))`:
the gross loss as an absolute value. -/
def totalLoss (ts : List ClosedTrade) : ℚ :=
  |((ts.filter (fun t => t.pnl ≤ 0)).map (fun t => t.pnl)).sum|

/-- `const profitFactor = totalLoss === 0 ? totalProfit : (totalProfit / totalLoss)`
(the analytics page additionally formats the quotient with `toFixed(2)` for
display; the quantity itself is modelled). -/
def profitFactor (ts : List ClosedTrade) : ℚ :=
  if totalLoss ts = 0 then totalProfit ts else totalProfit ts / totalLoss ts

/-- `t.entry_time.split('T')[0]`: the calendar-date part of the entry
time, i.e. the prefix of the ISO timestamp before the first `T`. -/
def entryDate (t : ClosedTrade) : String :=
  String.mk (t.entryTime.toList.takeWhile (fun c => c != 'T'))

/-- The calendar-date part of the exit time (used to state the spec's
claim about bucketing by exit date). -/
def exitDate (t : ClosedTrade) : String :=
  String.mk (t.exitTime.toList.takeWhile (fun c => c != 'T'))

/-- First-match association-list lookup: the observable semantics of both
JavaScript `Map.get` and JavaScript object property access. -/
def lookupKey {α : Type} (m : List (String × α)) (k : String) : Option α :=
  match m with
  | [] => none
  | (k1, v) :: rest => if k1 = k then some v else lookupKey rest k

/-- Whether an association list has a key. -/
def hasKey {α : Type} (m : List (String × α)) (k : String) : Bool :=
  m.any (fun p => p.1 = k)

/-- `Map.get` on an association list: first matching key. -/
def mapGet (m : List (String × ℚ)) (k : String) : Option ℚ :=
  lookupKey m k

/-- `Map.set` on an association list: replace an existing key in place,
otherwise append (JavaScript `Map` insertion-order semantics). -/
def mapSet (m : List (String × ℚ)) (k : String) (v : ℚ) : List (String × ℚ) :=
  if m.any (fun p => p.1 = k) then
    m.map (fun p => if p.1 = k then (k, v) else p)
  else m ++ [(k, v)]

/-- The daily P&L map of the dashboard page:
`trades.forEach(t => { const date = t.entry_time.split('T')[0];
dailyPnLMap.set(date, (dailyPnLMap.get(date) || 0) + t.pnl); })`. -/
def dailyPnLMap (ts : List ClosedTrade) : List (String × ℚ) :=
  ts.foldl
    (fun m t => mapSet m (entryDate t) ((mapGet m (entryDate t)).getD 0 + t.pnl))
    []

/-- The sum of the realized P&L of the trades whose entry date is `d`. -/
def sumPnlByEntryDate (ts : List ClosedTrade) (d : String) : ℚ :=
  ((ts.filter (fun t => entryDate t = d)).map (fun t => t.pnl)).sum

/-- The sum of the realized P&L of the trades whose exit date is `d`
(what the specification says the daily buckets hold). -/
def sumPnlByExitDate (ts : List ClosedTrade) (d : String) : ℚ :=
  ((ts.filter (fun t => exitDate t = d)).map (fun t => t.pnl)).sum

/-! ### YAML config endpoints: shallow-merge PATCH -/

/-- A YAML/JSON config value as handled by the config endpoints: scalar
strings, numbers, booleans, or nested objects (association lists in key
insertion order). -/
inductive ConfigValue where
  | str (s : String)
  | rat (q : ℚ)
  | bool (b : Bool)
  | obj (fields : List (String × ConfigValue))

/-- JavaScript object spread `{ ...a, ...b }`, modelled up to key order:
keys of `b` take their value from `b` wholesale, all other keys keep their
value from `a`. -/
def spreadMerge (a b : List (String × ConfigValue)) : List (String × ConfigValue) :=
  a.filter (fun p => !(hasKey b p.1)) ++ b

/-- The PATCH handler of the broker-zerodha and options config endpoints:
read the stored YAML config, compute
`const mergedConfig = { ...config, ...newConfig }`, and write the merged
object back.  The returned object is the full content written to disk. -/
def patchConfig (stored body : List (String × ConfigValue)) : List (String × ConfigValue) :=
  spreadMerge stored body

/-! ### Zerodha token-exchange POST handler -/

/-- `'...'`, the mask suffix appended to the truncated token. -/
def dotsMask : List Char := ['.', '.', '.']

/-- Outcome of a successful token exchange: what is written to the config
file and what is placed in the JSON response body.  Tokens are modelled as
lists of characters. -/
structure TokenExchangeResult where
  storedAccessToken : List Char
  responseAccessToken : List Char
  deriving DecidableEq

/-- The success branch of the POST handler: the full access token is
written to the config file (`config.kite.api.access_token = access_token`),
while the response body carries only
`access_token.substring(0, 4) + '...'`. -/
def postTokenSuccess (access_token : List Char) : TokenExchangeResult :=
  { storedAccessToken := access_token
    responseAccessToken := access_token.take 4 ++ dotsMask }

/-! ### Paper-trade lifecycle engine (modelled from the spec)

The trade ledger, exit evaluator, risk governor and trailing-stop logic
exist in the repository only as requirement documents; the definitions
below are modelled from the specification text (spec sections 4.1-4.3). -/

/-- Trade direction: CALL/BUY is long, PUT/SELL is short. -/
inductive Direction where
  | call
  | put
  deriving DecidableEq

/-- The sign applied to quantity when computing P&L: +1 for CALL/BUY,
-1 for PUT/SELL. -/
def dirSign : Direction → ℚ
  | .call => 1
  | .put => -1

/-- Modelled from the spec: the trade lifecycle states
SIGNAL_GENERATED → WAITING_FOR_EXECUTION → OPEN → PARTIAL_EXIT →
CLOSED, with CANCELLED reachable from the first two states (`opened`
renders OPEN, `partExit` renders PARTIAL_EXIT). -/
inductive TradeState where
  | signalGenerated
  | waitingForExecution
  | opened
  | partExit
  | closed
  | cancelled
  deriving DecidableEq

/-- Modelled from the spec: the Trade record owned by the Trade Ledger
(spec section 3): prices, quantity, lifecycle state, exit data and
realized P&L (none until closed). -/
structure Trade where
  id : ℕ
  symbol : String
  direction : Direction
  entryPrice : ℚ
  initialStopLoss : ℚ
  currentStopLoss : ℚ
  target : ℚ
  quantity : ℚ
  state : TradeState
  entryTime : ℕ
  exitTime : Option ℕ
  exitPrice : Option ℚ
  exitReason : Option String
  realizedPnl : Option ℚ
  unrealizedPnl : ℚ
  deriving DecidableEq

/-- Ledger transition failures (spec section 7). -/
inductive LedgerError where
  | alreadyTerminal
  | invalidTransition
  deriving DecidableEq

/-- Modelled from the spec:
`closeTrade(tradeId, exitPrice, reason, timestamp) -> ClosedTrade`
transitions to CLOSED, computes realized P&L =
(exitPrice − entryPrice) × signedQuantity (sign flips for PUT/SELL), and
fails with AlreadyTerminal when the trade is not OPEN or PARTIAL_EXIT. -/
def closeTrade (t : Trade) (exitPrice : ℚ) (reason : String) (timestamp : ℕ) :
    Except LedgerError Trade :=
  if t.state = .opened ∨ t.state = .partExit then
    .ok { t with
      state := .closed
      exitPrice := some exitPrice
      exitTime := some timestamp
      exitReason := some reason
      realizedPnl := some ((exitPrice - t.entryPrice) * t.quantity * dirSign t.direction) }
  else .error .alreadyTerminal

/-- Modelled from the spec: `recordTick(tradeId, ltp, timestamp)` updates
unrealized P&L for an OPEN trade; it performs no state transition and
never touches realized P&L. -/
def recordTick (t : Trade) (ltp : ℚ) : Trade :=
  if t.state = .opened then
    { t with unrealizedPnl := (ltp - t.entryPrice) * t.quantity * dirSign t.direction }
  else t

/-- Modelled from the spec: `cancelTrade(tradeId, reason)`, valid only
from SIGNAL_GENERATED or WAITING_FOR_EXECUTION, fails with
InvalidTransition otherwise. -/
def cancelTrade (t : Trade) (reason : String) : Except LedgerError Trade :=
  if t.state = .signalGenerated ∨ t.state = .waitingForExecution then
    .ok { t with state := .cancelled, exitReason := some reason }
  else .error .invalidTransition

/-- Recomputing the realized P&L of a closed trade from its stored entry
and exit prices (the round-trip direction of the spec's law). -/
def recomputedPnl (t : Trade) : ℚ :=
  (t.exitPrice.getD 0 - t.entryPrice) * t.quantity * dirSign t.direction

/-! #### Trailing stop (spec section 4.2) -/

/-- Modelled from the spec: the running trailing-stop state of one open
trade — the best price seen so far (highest for longs, lowest for shorts)
and the current trailing stop. -/
structure TrailState where
  bestPrice : ℚ
  trailingStop : ℚ
  deriving DecidableEq

/-- Modelled from the spec: the per-tick trailing-stop update of a
long/CALL trade,
`newTrailingStop = max(currentTrailingStop, highestPriceSoFar − atrMultiplier × ATR)`. -/
def trailTickLong (atr atrMultiplier : ℚ) (s : TrailState) (price : ℚ) : TrailState :=
  let hi := max s.bestPrice price
  { bestPrice := hi, trailingStop := max s.trailingStop (hi - atrMultiplier * atr) }

/-- Modelled from the spec: the symmetric per-tick update of a short/PUT
trade (min, lowest price, add). -/
def trailTickShort (atr atrMultiplier : ℚ) (s : TrailState) (price : ℚ) : TrailState :=
  let lo := min s.bestPrice price
  { bestPrice := lo, trailingStop := min s.trailingStop (lo + atrMultiplier * atr) }

/-- A whole sequence of successive ticks applied to a long trade's
trailing-stop state. -/
def trailRunLong (atr atrMultiplier : ℚ) (s : TrailState) (ticks : List ℚ) : TrailState :=
  ticks.foldl (trailTickLong atr atrMultiplier) s

/-! #### Exit evaluator (spec section 4.2) -/

/-- A price candle as consumed by the exit evaluator. -/
structure Candle where
  high : ℚ
  low : ℚ
  close : ℚ
  timestamp : ℕ
  deriving DecidableEq

/-- The possible exit decisions, in the spec's priority order. -/
inductive ExitKind where
  | stopLossHit
  | trailingStopHit
  | targetReached
  | signalReversal
  | marketCloseExit
  deriving DecidableEq

/-- The candle crosses the trade's current stop-loss level adversely:
for a CALL the low reaches down to the stop, for a PUT the high reaches
up to it. -/
def stopCrossed (t : Trade) (c : Candle) : Bool :=
  match t.direction with
  | .call => c.low ≤ t.currentStopLoss
  | .put => t.currentStopLoss ≤ c.high

/-- The candle crosses the trailing-stop level adversely. -/
def trailingCrossed (t : Trade) (trailingStop : ℚ) (c : Candle) : Bool :=
  match t.direction with
  | .call => c.low ≤ trailingStop
  | .put => trailingStop ≤ c.high

/-- The candle reaches the trade's target favorably. -/
def targetCrossed (t : Trade) (c : Candle) : Bool :=
  match t.direction with
  | .call => t.target ≤ c.high
  | .put => c.low ≤ t.target

/-- Modelled from the spec: `evaluate(trade, candle) -> ExitDecision | None`,
checking the exit conditions in fixed priority order — hard stop-loss,
trailing stop, target, signal reversal, market close — with first match
winning, so at most one exit decision (an `Option`) per call. -/
def evaluate (t : Trade) (trailingStop : ℚ) (c : Candle)
    (reversalSignal : Bool) (sessionEnd : ℕ) : Option ExitKind :=
  if stopCrossed t c then some .stopLossHit
  else if trailingCrossed t trailingStop c then some .trailingStopHit
  else if targetCrossed t c then some .targetReached
  else if reversalSignal then some .signalReversal
  else if sessionEnd ≤ c.timestamp then some .marketCloseExit
  else none

/-! #### Risk governor (spec section 4.3) -/

/-- Risk configuration: the max-daily-loss threshold (a positive number;
the day is stopped once cumulative realized P&L reaches `-maxDailyLoss`). -/
structure RiskConfig where
  maxDailyLoss : ℚ
  deriving DecidableEq

/-- Modelled from the spec: one DailyRiskState instance per trading day —
trading day, cumulative realized P&L, trade count and the
loss-limit-breached latch; reset at session start, mutated by every trade
close. -/
structure DailyRiskState where
  tradingDay : ℕ
  cumulativeRealizedPnl : ℚ
  tradeCount : ℕ
  lossLimitBreached : Bool
  deriving DecidableEq

/-- Admission denial reasons relevant to the daily-loss latch. -/
inductive DenyReason where
  | dailyCapReached
  deriving DecidableEq

/-- Result of an admission check. -/
inductive AdmissionResult where
  | admitted
  | denied (reason : DenyReason)
  deriving DecidableEq

/-- Modelled from the spec: a trade close adds its realized P&L to the
day's cumulative total and latches the loss-limit flag once the total
breaches the configured max-daily-loss threshold; nothing within the same
day ever clears the latch. -/
def recordTradeClose (cfg : RiskConfig) (s : DailyRiskState) (pnl : ℚ) : DailyRiskState :=
  let cum := s.cumulativeRealizedPnl + pnl
  { s with
    cumulativeRealizedPnl := cum
    tradeCount := s.tradeCount + 1
    lossLimitBreached := if cum ≤ -cfg.maxDailyLoss then true else s.lossLimitBreached }

/-- Modelled from the spec: `checkAdmission(signal, dailyRiskState)` —
once the daily-loss latch is set, ALL new admissions are denied with
DailyCapReached for the remainder of the trading day, regardless of the
signal's instrument (the symbol argument is not consulted by the latch). -/
def checkAdmission (s : DailyRiskState) (_signalSymbol : String) : AdmissionResult :=
  if s.lossLimitBreached then .denied .dailyCapReached else .admitted

/-- A whole same-day sequence of further trade closes applied to the
daily risk state. -/
def recordCloses (cfg : RiskConfig) (s : DailyRiskState) (pnls : List ℚ) : DailyRiskState :=
  pnls.foldl (recordTradeClose cfg) s

/-! ## Concrete inputs used by counterexamples and witnesses -/

/-- An overnight trade: entered on 2025-01-01, exited on 2025-01-02,
realized P&L 10. -/
def overnightTrade : ClosedTrade :=
  { symbol := "NIFTY50"
    optionType := "CALL"
    pattern := "is_breakout"
    entryTime := "2025-01-01T15:00:00"
    exitTime := "2025-01-02T09:30:00"
    exitPrice := 110
    pnl := 10 }

/-- A winning trade with P&L 30. -/
def winTrade : ClosedTrade :=
  { symbol := "NIFTY50"
    optionType := "CALL"
    pattern := "is_breakout"
    entryTime := "2025-01-03T10:00:00"
    exitTime := "2025-01-03T11:00:00"
    exitPrice := 130
    pnl := 30 }

/-- A losing trade with P&L -10. -/
def lossTrade : ClosedTrade :=
  { symbol := "BANKNIFTY"
    optionType := "PUT"
    pattern := "is_breakdown"
    entryTime := "2025-01-03T12:00:00"
    exitTime := "2025-01-03T12:30:00"
    exitPrice := 90
    pnl := -10 }

/-! ## Association-list lemmas for the JavaScript Map and object models -/

theorem lookupKey_append {α : Type} (m1 m2 : List (String × α)) (k : String) :
    lookupKey (m1 ++ m2) k =
      match lookupKey m1 k with
      | some v => some v
      | none => lookupKey m2 k := by
  induction m1 with
  | nil => rfl
  | cons hd tl ih =>
    obtain ⟨k1, v1⟩ := hd
    by_cases h1 : k1 = k <;> simp [lookupKey, h1, ih]

theorem lookupKey_eq_none_of_hasKey_false {α : Type} (m : List (String × α)) (k : String)
    (h : hasKey m k = false) : lookupKey m k = none := by
  induction m with
  | nil => rfl
  | cons hd tl ih =>
    obtain ⟨k1, v1⟩ := hd
    simp [hasKey, List.any_cons] at h
    obtain ⟨h1, h2⟩ := h
    simp [lookupKey, h1]
    exact ih (by simpa [hasKey] using h2)

theorem lookupKey_map_replace_ne (m : List (String × ℚ)) (k : String) (v : ℚ) (d : String)
    (hkd : k ≠ d) :
    lookupKey (m.map (fun p => if p.1 = k then (k, v) else p)) d = lookupKey m d := by
  induction m with
  | nil => rfl
  | cons hd tl ih =>
    obtain ⟨k1, v1⟩ := hd
    simp only [List.map_cons]
    split
    · rename_i h1
      have h2 : k1 = k := h1
      subst h2
      simp [lookupKey, hkd, ih]
    · rename_i h1
      have h2 : ¬k1 = k := fun hh => h1 hh
      by_cases h3 : k1 = d <;> simp [lookupKey, h2, h3, ih]

theorem lookupKey_map_replace_eq (m : List (String × ℚ)) (k : String) (v : ℚ)
    (h : m.any (fun p => p.1 = k) = true) :
    lookupKey (m.map (fun p => if p.1 = k then (k, v) else p)) k = some v := by
  induction m with
  | nil => simp at h
  | cons hd tl ih =>
    obtain ⟨k1, v1⟩ := hd
    simp only [List.map_cons]
    split
    · rename_i h1
      simp [lookupKey]
    · rename_i h1
      have h2 : ¬k1 = k := fun hh => h1 hh
      simp only [List.any_cons, decide_eq_true_eq, Bool.or_eq_true] at h
      rcases h with h | h
      · exact absurd h h2
      · simp [lookupKey, h2]
        exact ih (by simpa using h)

/-- The lookup semantics of `Map.set`: the written key now maps to the
written value, every other key is untouched. -/
theorem mapGet_mapSet (m : List (String × ℚ)) (k : String) (v : ℚ) (d : String) :
    mapGet (mapSet m k v) d = if k = d then some v else mapGet m d := by
  by_cases hkd : k = d
  · subst hkd
    by_cases hany : m.any (fun p => p.1 = k) = true
    · simp [mapGet, mapSet, hany, lookupKey_map_replace_eq m k v hany]
    · have hany2 : (m.any fun p => decide (p.1 = k)) = false := by
        simpa only [Bool.not_eq_true] using hany
      have hnone : lookupKey m k = none :=
        lookupKey_eq_none_of_hasKey_false m k hany2
      simp [mapGet, mapSet, hany2, lookupKey_append, hnone, lookupKey]
  · by_cases hany : m.any (fun p => p.1 = k) = true
    · simp [mapGet, mapSet, hany, lookupKey_map_replace_ne m k v d hkd, hkd]
    · simp only [mapGet, mapSet, hany, if_false, Bool.false_eq_true, lookupKey_append]
      cases h : lookupKey m d <;> simp [lookupKey, hkd, hkd]

/-- Unrolling the daily P&L fold from any intermediate map. -/
theorem dailyPnLMap_foldl (ts : List ClosedTrade) (m : List (String × ℚ)) (d : String) :
    (mapGet (ts.foldl
        (fun m t => mapSet m (entryDate t) ((mapGet m (entryDate t)).getD 0 + t.pnl)) m)
      d).getD 0
      = (mapGet m d).getD 0 + sumPnlByEntryDate ts d := by
  induction ts generalizing m with
  | nil => simp [sumPnlByEntryDate]
  | cons t rest ih =>
    rw [List.foldl_cons, ih]
    by_cases h : entryDate t = d
    · simp [mapGet_mapSet, h, sumPnlByEntryDate, List.filter_cons]
      ring
    · simp [mapGet_mapSet, h, sumPnlByEntryDate, List.filter_cons]

/-! ## C1: daily P&L bucketing -/

/-- C1 (counterexample): the claim says each day's figure of the daily
P&L map is the sum of the realized P&L of the trades that EXITED that
day.  For a trade entered on 2025-01-01 and exited on 2025-01-02 with
P&L 10, the code's `dailyPnLMap` puts the 10 under 2025-01-01 (the entry
date) and nothing under the exit date 2025-01-02, so the exit-date
figure 0 differs from the exit-date P&L sum 10. -/
theorem c1_counterexample_not_bucketed_by_exit_date :
    (mapGet (dailyPnLMap [overnightTrade]) "2025-01-02").getD 0
        ≠ sumPnlByExitDate [overnightTrade] "2025-01-02" ∧
    exitDate overnightTrade = "2025-01-02" ∧
    sumPnlByExitDate [overnightTrade] "2025-01-02" = 10 ∧
    (mapGet (dailyPnLMap [overnightTrade]) "2025-01-02").getD 0 = 0 ∧
    (mapGet (dailyPnLMap [overnightTrade]) "2025-01-01").getD 0 = 10 := by
  have h2 : (mapGet (dailyPnLMap [overnightTrade]) "2025-01-02").getD 0 = 0 := by
    simp +decide [dailyPnLMap, mapSet, mapGet, lookupKey, entryDate, overnightTrade]
  have h3 : sumPnlByExitDate [overnightTrade] "2025-01-02" = 10 := by
    simp +decide [sumPnlByExitDate, exitDate, overnightTrade]
  have h4 : (mapGet (dailyPnLMap [overnightTrade]) "2025-01-01").getD 0 = 10 := by
    simp +decide [dailyPnLMap, mapSet, mapGet, lookupKey, entryDate, overnightTrade]
  exact ⟨by rw [h2, h3]; norm_num, by decide, h3, h2, h4⟩

/-- C1 (amended): for every sequence of closed trades, each calendar
day's figure of the dashboard's daily P&L map equals the sum of the
realized P&L of the trades whose ENTRY date (`entry_time.split('T')[0]`)
is that day — the code buckets by entry date, not by exit date. -/
theorem c1_daily_pnl_bucketed_by_entry_date (ts : List ClosedTrade) (d : String) :
    (mapGet (dailyPnLMap ts) d).getD 0 = sumPnlByEntryDate ts d := by
  have h := dailyPnLMap_foldl ts [] d
  simpa [dailyPnLMap, mapGet, lookupKey] using h

/-! ## C2: summarize on the empty trade list -/

/-- C2 (counterexample): on the empty trade list the win-rate expression
`wins / trades.length * 100` is the JavaScript division `0 / 0`, which
evaluates to NaN, not to the number 0 the claim requires. -/
theorem c2_counterexample_empty_win_rate_not_zero :
    winRateJS [] ≠ JSNum.num 0 := by
  simp [winRateJS, winsCount, jsDiv, jsMul]

/-- C2 (amended): on the empty trade list the summary's total trade
count is 0 and the win-rate computation does not fail — it evaluates
(without any exception) to NaN rather than 0. -/
theorem c2_empty_summary_total_zero_win_rate_nan :
    totalTrades ([] : List ClosedTrade) = 0 ∧
    winRateJS [] = JSNum.nan := by
  constructor
  · rfl
  · simp [winRateJS, winsCount, jsDiv, jsMul]

/-! ## C3: profit factor -/

/-- C3: for every sequence of closed trades, the profit factor is gross
profit / gross loss, and gross profit itself when gross loss is 0
(`totalLoss === 0 ? totalProfit : totalProfit / totalLoss`). -/
theorem c3_profit_factor_formula (ts : List ClosedTrade) :
    (totalLoss ts = 0 → profitFactor ts = totalProfit ts) ∧
    (totalLoss ts ≠ 0 → profitFactor ts = totalProfit ts / totalLoss ts) := by
  constructor <;> intro h <;> simp [profitFactor, h]

/-- C3 witness: concrete evaluations.  With one +30 and one -10 trade
gross loss is 10 ≠ 0 and the profit factor is the quotient 3; with only
the +30 trade gross loss is 0 and the profit factor is the gross profit
30. -/
theorem c3_profit_factor_formula_witness :
    totalLoss [winTrade, lossTrade] ≠ 0 ∧
    profitFactor [winTrade, lossTrade]
      = totalProfit [winTrade, lossTrade] / totalLoss [winTrade, lossTrade] ∧
    totalLoss [winTrade] = 0 ∧
    profitFactor [winTrade] = totalProfit [winTrade] ∧
    profitFactor [winTrade, lossTrade] = 3 ∧
    profitFactor [winTrade] = 30 := by
  have hne : totalLoss [winTrade, lossTrade] ≠ 0 := by
    norm_num [totalLoss, winTrade, lossTrade, List.filter_cons]
  have h0 : totalLoss [winTrade] = 0 := by
    norm_num [totalLoss, winTrade, List.filter_cons]
  have hq := (c3_profit_factor_formula [winTrade, lossTrade]).2 hne
  have hp := (c3_profit_factor_formula [winTrade]).1 h0
  refine ⟨hne, hq, h0, hp, ?_, ?_⟩
  · rw [hq]
    norm_num [totalProfit, totalLoss, winTrade, lossTrade, List.filter_cons]
  · rw [hp]
    norm_num [totalProfit, winTrade, List.filter_cons]

/-! ## C4: win rate on non-empty trade lists -/

/-- C4: for every non-empty sequence of closed trades, the win rate (a
percentage, rendered with a `%` suffix) is exactly the number of winning
trades divided by the total number of trades, scaled by 100; in
particular the JavaScript arithmetic produces a finite number, not NaN. -/
theorem c4_win_rate_wins_over_total (ts : List ClosedTrade) (h : ts ≠ []) :
    winRateJS ts
      = JSNum.num ((winsCount ts : ℚ) / (totalTrades ts : ℚ) * 100) := by
  have hlen : ((ts.length : ℚ)) ≠ 0 := by
    simpa [List.length_eq_zero] using h
  simp [winRateJS, jsDiv, jsMul, hlen, totalTrades]

/-- C4 witness: with one winning and one losing trade the win rate
evaluates to the number 50 (= 1/2 × 100). -/
theorem c4_win_rate_wins_over_total_witness :
    ([winTrade, lossTrade] : List ClosedTrade) ≠ [] ∧
    winRateJS [winTrade, lossTrade]
      = JSNum.num ((winsCount [winTrade, lossTrade] : ℚ)
          / (totalTrades [winTrade, lossTrade] : ℚ) * 100) ∧
    winRateJS [winTrade, lossTrade] = JSNum.num 50 := by
  have hne : ([winTrade, lossTrade] : List ClosedTrade) ≠ [] := by simp
  have hw := c4_win_rate_wins_over_total [winTrade, lossTrade] hne
  refine ⟨hne, hw, ?_⟩
  rw [hw]
  norm_num [winsCount, totalTrades, winTrade, lossTrade, List.filter_cons]

/-! ## C5: trailing-stop ratchet -/

/-- Monotonicity of the trailing stop over any sequence of ticks for a
long trade. -/
theorem trailRunLong_mono (atr atrMultiplier : ℚ) (s : TrailState) (ticks : List ℚ) :
    s.trailingStop ≤ (trailRunLong atr atrMultiplier s ticks).trailingStop := by
  induction ticks generalizing s with
  | nil => simp [trailRunLong]
  | cons p rest ih =>
    calc s.trailingStop
        ≤ (trailTickLong atr atrMultiplier s p).trailingStop := le_max_left _ _
      _ ≤ _ := by
          rw [trailRunLong, List.foldl_cons]
          exact ih _

/-- C5: the trailing stop ratchets.  For every tick of a long (CALL)
trade the new trailing stop is
`max(currentTrailingStop, highestPriceSoFar − atrMultiplier × ATR)`, so
it never decreases, and it never decreases across any sequence of
successive ticks; symmetrically with min for a short (PUT) trade it
never increases.  With ATR = 2, multiplier = 1.3, and a tick sequence
whose highest price is 110, the final trailing stop is
110 − 2.6 = 107.4 even though a later tick is lower. -/
theorem c5_trailing_stop_ratchet :
    (∀ (atr atrMultiplier : ℚ) (s : TrailState) (p : ℚ),
        s.trailingStop ≤ (trailTickLong atr atrMultiplier s p).trailingStop ∧
        (trailTickLong atr atrMultiplier s p).trailingStop
          = max s.trailingStop (max s.bestPrice p - atrMultiplier * atr)) ∧
    (∀ (atr atrMultiplier : ℚ) (s : TrailState) (p : ℚ),
        (trailTickShort atr atrMultiplier s p).trailingStop ≤ s.trailingStop ∧
        (trailTickShort atr atrMultiplier s p).trailingStop
          = min s.trailingStop (min s.bestPrice p + atrMultiplier * atr)) ∧
    (∀ (atr atrMultiplier : ℚ) (s : TrailState) (ticks : List ℚ),
        s.trailingStop ≤ (trailRunLong atr atrMultiplier s ticks).trailingStop) ∧
    (trailRunLong 2 (13/10) ⟨100, 97⟩ [104, 110, 106]).trailingStop = 107.4 := by
  refine ⟨fun atr m s p => ⟨le_max_left _ _, rfl⟩,
    fun atr m s p => ⟨min_le_left _ _, rfl⟩,
    trailRunLong_mono, ?_⟩
  norm_num [trailRunLong, trailTickLong, max_def]

/-! ## C6: exit-priority of stop-loss over target -/

/-- C6: for every OPEN trade evaluation in which the candle crosses both
the stop-loss level and the target level, the evaluator (which checks
its conditions in fixed priority order and returns an `Option`, hence at
most one exit decision per call) reports a stop-loss exit, never a
target exit. -/
theorem c6_stop_loss_priority_over_target (t : Trade) (trailingStop : ℚ) (c : Candle)
    (reversalSignal : Bool) (sessionEnd : ℕ)
    (hs : stopCrossed t c = true) (_ht : targetCrossed t c = true) :
    evaluate t trailingStop c reversalSignal sessionEnd = some ExitKind.stopLossHit ∧
    evaluate t trailingStop c reversalSignal sessionEnd ≠ some ExitKind.targetReached := by
  simp [evaluate, hs]

/-- The spec's concrete gap scenario: CALL trade with entry 100,
stop-loss 98, target 106. -/
def gapTrade : Trade :=
  { id := 1
    symbol := "NIFTY50"
    direction := .call
    entryPrice := 100
    initialStopLoss := 98
    currentStopLoss := 98
    target := 106
    quantity := 1
    state := .opened
    entryTime := 0
    exitTime := none
    exitPrice := none
    exitReason := none
    realizedPnl := none
    unrealizedPnl := 0 }

/-- A single candle that reaches 106 and then 98: both the target and
the stop-loss are crossed within the same candle. -/
def gapCandle : Candle :=
  { high := 106, low := 98, close := 98, timestamp := 1 }

/-- C6 witness: in the spec's gap scenario both levels are crossed and
the evaluator reports the stop-loss exit. -/
theorem c6_stop_loss_priority_over_target_witness :
    stopCrossed gapTrade gapCandle = true ∧
    targetCrossed gapTrade gapCandle = true ∧
    evaluate gapTrade 97 gapCandle false 10000 = some ExitKind.stopLossHit := by
  have hs : stopCrossed gapTrade gapCandle = true := by
    norm_num [stopCrossed, gapTrade, gapCandle]
  have ht : targetCrossed gapTrade gapCandle = true := by
    norm_num [targetCrossed, gapTrade, gapCandle]
  exact ⟨hs, ht,
    (c6_stop_loss_priority_over_target gapTrade 97 gapCandle false 10000 hs ht).1⟩

/-! ## C7: realized P&L round-trip and immutability -/

/-- C7: closing a trade stores
realized P&L = (exitPrice − entryPrice) × quantity × direction sign
(sign flipped for PUT/SELL); recomputing that formula from the stored
entry and exit prices reproduces the stored value (round-trip law); and
the value is set exactly once — every later ledger operation on the
CLOSED trade either fails (`closeTrade`, `cancelTrade`) or leaves the
realized P&L untouched (`recordTick`). -/
theorem c7_realized_pnl_roundtrip_immutable (t t2 : Trade) (exitPrice : ℚ)
    (reason : String) (timestamp : ℕ)
    (h : closeTrade t exitPrice reason timestamp = .ok t2) :
    t2.realizedPnl
        = some ((exitPrice - t.entryPrice) * t.quantity * dirSign t.direction) ∧
    t2.state = .closed ∧
    recomputedPnl t2 = t2.realizedPnl.getD 0 ∧
    (∀ p2 r2 ts2, closeTrade t2 p2 r2 ts2 = .error .alreadyTerminal) ∧
    (∀ ltp, (recordTick t2 ltp).realizedPnl = t2.realizedPnl) ∧
    (∀ r2, cancelTrade t2 r2 = .error .invalidTransition) := by
  unfold closeTrade at h
  split at h
  · cases h
    refine ⟨rfl, rfl, ?_, ?_, ?_, ?_⟩
    · simp [recomputedPnl]
    · intro p2 r2 ts2
      simp [closeTrade]
    · intro ltp
      simp [recordTick]
    · intro r2
      simp [cancelTrade]
  · cases h

/-- An OPEN CALL trade used to exercise `closeTrade`: entry 100,
quantity 50. -/
def openCallTrade : Trade :=
  { id := 2
    symbol := "NIFTY50"
    direction := .call
    entryPrice := 100
    initialStopLoss := 98
    currentStopLoss := 99
    target := 106
    quantity := 50
    state := .opened
    entryTime := 0
    exitTime := none
    exitPrice := none
    exitReason := none
    realizedPnl := none
    unrealizedPnl := 0 }

/-- The trade produced by closing `openCallTrade` at 104. -/
def closedCallTrade : Trade :=
  { openCallTrade with
    state := .closed
    exitPrice := some 104
    exitTime := some 5
    exitReason := some "target-reached"
    realizedPnl :=
      some ((104 - openCallTrade.entryPrice) * openCallTrade.quantity
        * dirSign openCallTrade.direction) }

/-- C7 witness: closing the concrete open trade at 104 stores realized
P&L (104 − 100) × 50 × 1 = 200 and satisfies the round-trip law. -/
theorem c7_realized_pnl_roundtrip_immutable_witness :
    closeTrade openCallTrade 104 "target-reached" 5 = .ok closedCallTrade ∧
    closedCallTrade.realizedPnl
      = some ((104 - openCallTrade.entryPrice) * openCallTrade.quantity
          * dirSign openCallTrade.direction) ∧
    closedCallTrade.realizedPnl = some 200 ∧
    recomputedPnl closedCallTrade = closedCallTrade.realizedPnl.getD 0 := by
  have h : closeTrade openCallTrade 104 "target-reached" 5 = .ok closedCallTrade := by
    simp [closeTrade, openCallTrade, closedCallTrade]
  have hc := c7_realized_pnl_roundtrip_immutable openCallTrade closedCallTrade
    104 "target-reached" 5 h
  refine ⟨h, hc.1, ?_, hc.2.2.1⟩
  rw [hc.1]
  norm_num [openCallTrade, dirSign]

/-! ## C8: the daily-loss latch -/

/-- The latch survives any same-day sequence of further trade closes. -/
theorem recordCloses_latch (cfg : RiskConfig) (s : DailyRiskState) (pnls : List ℚ)
    (h : s.lossLimitBreached = true) :
    (recordCloses cfg s pnls).lossLimitBreached = true := by
  induction pnls generalizing s with
  | nil => simpa [recordCloses] using h
  | cons p rest ih =>
    rw [recordCloses, List.foldl_cons]
    exact ih _ (by simp [recordTradeClose, h])

/-- C8: once a trade close makes the day's cumulative realized P&L
breach the configured max-daily-loss threshold, the loss-limit latch is
set; every admission request — for every instrument symbol, including
ones with no prior trades — is denied with DailyCapReached; and the
latch stays set (with admissions still denied) after any further
same-day sequence of trade closes. -/
theorem c8_daily_loss_latch (cfg : RiskConfig) (s : DailyRiskState) (loss : ℚ)
    (hcross : s.cumulativeRealizedPnl + loss ≤ -cfg.maxDailyLoss) :
    (recordTradeClose cfg s loss).lossLimitBreached = true ∧
    (∀ sym, checkAdmission (recordTradeClose cfg s loss) sym
        = .denied .dailyCapReached) ∧
    (∀ pnls : List ℚ,
      (recordCloses cfg (recordTradeClose cfg s loss) pnls).lossLimitBreached = true ∧
      ∀ sym, checkAdmission (recordCloses cfg (recordTradeClose cfg s loss) pnls) sym
          = .denied .dailyCapReached) := by
  have h1 : (recordTradeClose cfg s loss).lossLimitBreached = true := by
    simp [recordTradeClose, hcross]
  refine ⟨h1, fun sym => by simp [checkAdmission, h1], fun pnls => ?_⟩
  have h2 := recordCloses_latch cfg _ pnls h1
  exact ⟨h2, fun sym => by simp [checkAdmission, h2]⟩

/-- A daily risk state one unit above the −100 loss threshold, with no
breach yet. -/
def nearLimitState : DailyRiskState :=
  { tradingDay := 20250103
    cumulativeRealizedPnl := -99
    tradeCount := 5
    lossLimitBreached := false }

/-- C8 witness: with max daily loss 100 and cumulative P&L −99, a new
−2 loss crosses the threshold; the latch sets, a fresh instrument with
no prior trades is denied, and the latch survives further closes (+30
and −1) with admissions still denied. -/
theorem c8_daily_loss_latch_witness :
    nearLimitState.cumulativeRealizedPnl + (-2) ≤ -(RiskConfig.mk 100).maxDailyLoss ∧
    (recordTradeClose ⟨100⟩ nearLimitState (-2)).lossLimitBreached = true ∧
    checkAdmission (recordTradeClose ⟨100⟩ nearLimitState (-2)) "FINNIFTY"
      = .denied .dailyCapReached ∧
    (recordCloses ⟨100⟩ (recordTradeClose ⟨100⟩ nearLimitState (-2))
        [30, -1]).lossLimitBreached = true ∧
    checkAdmission (recordCloses ⟨100⟩ (recordTradeClose ⟨100⟩ nearLimitState (-2))
        [30, -1]) "SENSEX" = .denied .dailyCapReached := by
  have hcross : nearLimitState.cumulativeRealizedPnl + (-2)
      ≤ -(RiskConfig.mk 100).maxDailyLoss := by
    norm_num [nearLimitState]
  have hc := c8_daily_loss_latch ⟨100⟩ nearLimitState (-2) hcross
  exact ⟨hcross, hc.1, hc.2.1 "FINNIFTY", (hc.2.2 [30, -1]).1,
    (hc.2.2 [30, -1]).2 "SENSEX"⟩

/-! ## C9: shallow-merge PATCH -/

/-- Keys present in `b` disappear from the `{...a, ...b}` left part. -/
theorem lookupKey_filter_not_hasKey (a b : List (String × ConfigValue)) (k : String)
    (hb : hasKey b k = true) :
    lookupKey (a.filter (fun p => !(hasKey b p.1))) k = none := by
  induction a with
  | nil => rfl
  | cons hd tl ih =>
    obtain ⟨k1, v1⟩ := hd
    rw [List.filter_cons]
    by_cases h1 : k1 = k
    · subst h1
      simp [hb, ih]
    · by_cases h2 : hasKey b k1 = true
      · simp [h2, ih]
      · have h2f : hasKey b k1 = false := by
          simpa only [Bool.not_eq_true] using h2
        simp [h2f, lookupKey, h1, ih]

/-- Keys absent from `b` keep their lookup in the `{...a, ...b}` left
part. -/
theorem lookupKey_filter_keep (a b : List (String × ConfigValue)) (k : String)
    (hb : hasKey b k = false) :
    lookupKey (a.filter (fun p => !(hasKey b p.1))) k = lookupKey a k := by
  induction a with
  | nil => rfl
  | cons hd tl ih =>
    obtain ⟨k1, v1⟩ := hd
    rw [List.filter_cons]
    by_cases h1 : k1 = k
    · subst h1
      simp [hb, lookupKey, ih]
    · by_cases h2 : hasKey b k1 = true
      · simp [h2, lookupKey, h1, ih]
      · have h2f : hasKey b k1 = false := by
          simpa only [Bool.not_eq_true] using h2
        simp [h2f, lookupKey, h1, ih]

/-- C9: the config PATCH is a shallow merge.  For every stored config,
request body and top-level key: a key present in the body maps, in the
written config, to the body's value for it wholesale (so nested fields
under it are NOT deep-merged — the stored nested content is discarded),
and a key absent from the body keeps its stored value unchanged. -/
theorem c9_patch_shallow_merge (stored body : List (String × ConfigValue))
    (k : String) :
    (hasKey body k = true →
      lookupKey (patchConfig stored body) k = lookupKey body k) ∧
    (hasKey body k = false →
      lookupKey (patchConfig stored body) k = lookupKey stored k) := by
  constructor
  · intro hb
    have hfil := lookupKey_filter_not_hasKey stored body k hb
    simp [patchConfig, spreadMerge, lookupKey_append, hfil]
  · intro hb
    have hfil := lookupKey_filter_keep stored body k hb
    have hnone := lookupKey_eq_none_of_hasKey_false body k hb
    rw [patchConfig, spreadMerge, lookupKey_append, hfil]
    cases h : lookupKey stored k <;> simp [h, hnone]

/-- A stored config shaped like `kite-config.yaml`: a nested `kite`
object and a `live_trading` object. -/
def storedZerodhaConfig : List (String × ConfigValue) :=
  [("kite", .obj [("api", .obj [("key", .str "oldkey"), ("secret", .str "oldsecret")])]),
   ("live_trading", .obj [("enabled", .bool false)])]

/-- A PATCH body supplying only the `kite` top-level key, with a nested
`api` object that lacks the `secret` field. -/
def patchBody : List (String × ConfigValue) :=
  [("kite", .obj [("api", .obj [("key", .str "newkey")])])]

/-- C9 witness: the supplied `kite` key is replaced wholesale (the
stored `secret` under it is gone — shallow, not deep, merge), while the
untouched `live_trading` key is written back unchanged. -/
theorem c9_patch_shallow_merge_witness :
    hasKey patchBody "kite" = true ∧
    lookupKey (patchConfig storedZerodhaConfig patchBody) "kite"
      = lookupKey patchBody "kite" ∧
    lookupKey (patchConfig storedZerodhaConfig patchBody) "kite"
      = some (ConfigValue.obj [("api", ConfigValue.obj [("key", ConfigValue.str "newkey")])]) ∧
    hasKey patchBody "live_trading" = false ∧
    lookupKey (patchConfig storedZerodhaConfig patchBody) "live_trading"
      = lookupKey storedZerodhaConfig "live_trading" ∧
    lookupKey (patchConfig storedZerodhaConfig patchBody) "live_trading"
      = some (ConfigValue.obj [("enabled", ConfigValue.bool false)]) := by
  have h1 : hasKey patchBody "kite" = true := by rfl
  have h2 : hasKey patchBody "live_trading" = false := by rfl
  have hk := (c9_patch_shallow_merge storedZerodhaConfig patchBody "kite").1 h1
  have hl := (c9_patch_shallow_merge storedZerodhaConfig patchBody "live_trading").2 h2
  refine ⟨h1, hk, ?_, h2, hl, ?_⟩
  · rw [hk]; rfl
  · rw [hl]; rfl

/-! ## C10: access-token masking in the POST response -/

/-- C10: on a successful token exchange the JSON response body carries
only the first 4 characters of the obtained access token followed by
`...` — for any realistic token (longer than 7 characters) the response
field can never equal the full token — while the full token is written
only to the config file. -/
theorem c10_token_masked_in_response (access_token : List Char)
    (h : 7 < access_token.length) :
    (postTokenSuccess access_token).responseAccessToken
        = access_token.take 4 ++ dotsMask ∧
    (postTokenSuccess access_token).responseAccessToken ≠ access_token ∧
    (postTokenSuccess access_token).storedAccessToken = access_token := by
  refine ⟨rfl, ?_, rfl⟩
  intro heq
  have hlen := congrArg List.length heq
  simp only [postTokenSuccess, dotsMask, List.length_append, List.length_take,
    List.length_cons, List.length_nil] at hlen
  omega

/-- C10 witness: for a concrete 16-character token the response field is
`kite...`, not the token, and the stored config holds the full token. -/
theorem c10_token_masked_in_response_witness :
    7 < ("kiteacctoken1234".toList).length ∧
    (postTokenSuccess "kiteacctoken1234".toList).responseAccessToken
      = "kite...".toList ∧
    (postTokenSuccess "kiteacctoken1234".toList).responseAccessToken
      ≠ "kiteacctoken1234".toList ∧
    (postTokenSuccess "kiteacctoken1234".toList).storedAccessToken
      = "kiteacctoken1234".toList := by
  have h : 7 < ("kiteacctoken1234".toList).length := by decide
  have hc := c10_token_masked_in_response _ h
  refine ⟨h, ?_, hc.2.1, hc.2.2⟩
  rw [hc.1]
  decide

end Yesbee
